import Mathlib

/-!
# gitlab-webhook: a verification development

A shallow embedding of `gitlab-webhook.go` (package `main`): the data types, `loadConfig`,
`hookHandler`, the SIGHUP goroutine started by `main`, and `main` itself.

Everything the program obtains from outside its own text is explicit:

* the standard library calls `json.Unmarshal` and `exec.Command(cmd).Output()` are the fields of
  an environment record `Env`, so every general theorem holds for all decoders and all command
  outcomes;
* the file system is a function from paths to `FileEntry`;
* the process is a record `Proc` holding the package-level `cfg`, the variable `config` of
  `main`, the log, the signal channel, and what has been executed so far.

A Go `error` is its message (`String`), a possibly-nil error is `Option String`.
-/

namespace GitlabWebhook

set_option maxRecDepth 100000

/-! ## Data types (lines 17-64 of the source) -/

/-- GitlabRepository represents repository information from the webhook. -/
structure GitlabRepository where
  Name : String
  URL : String
  Description : String
  Home : String
  deriving DecidableEq, Repr

/-- Author represents author information from the webhook. -/
structure Author where
  Name : String
  Email : String
  deriving DecidableEq, Repr

/-- Commit represents commit information from the webhook. -/
structure Commit where
  ID : String
  Message : String
  Timestamp : String
  URL : String
  Author : Author
  deriving DecidableEq, Repr

/-- Webhook represents push information from the webhook. -/
structure Webhook where
  Before : String
  After : String
  Ref : String
  Username : String
  UserID : Int
  ProjectID : Int
  Repository : GitlabRepository
  Commits : List Commit
  TotalCommitsCount : Int
  deriving DecidableEq, Repr

/-- ConfigRepository represents a repository from the config file. -/
structure ConfigRepository where
  Name : String
  Commands : List String
  deriving DecidableEq, Repr

/-- Config represents the config file. -/
structure Config where
  Address : String
  Port : Int
  Repositories : List ConfigRepository
  deriving DecidableEq, Repr

/-- The Go zero value `Config{}`. -/
def Config.zero : Config := { Address := "", Port := 0, Repositories := [] }

/-- The Go zero value of `Webhook` (what `var hook Webhook` holds). -/
def Webhook.zero : Webhook :=
  { Before := "", After := "", Ref := "", Username := "", UserID := 0, ProjectID := 0,
    Repository := { Name := "", URL := "", Description := "", Home := "" },
    Commits := [], TotalCommitsCount := 0 }

/-! ## The outside world -/

/-- A byte. -/
abbrev Byte := Fin 256

/-- A byte slice. -/
abbrev Bytes := List Byte

/-- What a path names when `loadConfig` runs.
`missing e`: `os.Open` fails with `e`.
`unreadable e`: `os.Open` succeeds and `file.Read` fails with `e` (a directory, an I/O error).
`regular c`: a regular file whose contents are `c`. -/
inductive FileEntry where
  | missing (err : String)
  | unreadable (err : String)
  | regular (contents : Bytes)

/-- A file system: what each path names. -/
abbrev FileSystem := String → FileEntry

/-- The result of `exec.Command(cmd).Output()`: the captured standard output and the error
(`none` when the command ran and exited with status 0; `some e` both when it could not be
started, where `out` is empty, and when it exited non-zero, where `out` is what it printed). -/
structure ExecResult where
  out : String
  err : Option String
  deriving DecidableEq

/-- The library calls the program makes, over a world state `σ` that command executions may
read and change.
`unmarshalConfig data v` is `json.Unmarshal(data, &v)` for `v : Config`: the value left in `v`
and the returned error. `unmarshalWebhook` likewise for `Webhook`.
`output w cmd` is `exec.Command(cmd).Output()` run in world `w`: what the call returns and
the world afterwards. `Output()` waits for the command to exit and there is no timeout, so for
a command that never exits the call never returns: that is `none`. `some res` covers the three
outcomes of a command that ends (success, failure to start, non-zero exit). -/
structure Env (σ : Type) where
  unmarshalConfig : Bytes → Config → Config × Option String
  unmarshalWebhook : Bytes → Webhook → Webhook × Option String
  output : σ → String → Option ExecResult × σ

/-- The message of `io.EOF`. -/
def ioEOF : String := "EOF"

/-- The call `os.Open(configFile)`: the error, or the entry that was opened. -/
def osOpen (fs : FileSystem) (path : String) : Except String FileEntry :=
  match fs path with
  | .missing e => .error e
  | f => .ok f

/-- The call `count, err = file.Read(buffer)` on a freshly opened file: one read into a buffer
of `n` bytes. On a regular file it delivers the first `min n len` bytes; at end of file (here:
an empty file) it returns `0, io.EOF`. The result is `buffer[:count]` and `err`. -/
def fileRead (f : FileEntry) (n : Nat) : Bytes × Option String :=
  match f with
  | .missing e => ([], some e)
  | .unreadable e => ([], some e)
  | .regular c => if c.isEmpty then ([], some ioEOF) else (c.take n, none)

/-! ## loadConfig (lines 127-149) -/

/-- The function `loadConfig`: open, one `Read` into a 1024-byte buffer, `json.Unmarshal` of
`buffer[:count]` into a zero `Config`; every error path returns `Config{}` and the error. -/
def loadConfig {σ : Type} (env : Env σ) (fs : FileSystem) (configFile : String) :
    Config × Option String :=
  match osOpen fs configFile with
  | .error err => (Config.zero, some err)
  | .ok file =>
    match fileRead file 1024 with
    | (_, some err) => (Config.zero, some err)
    | (buf, none) =>
      match env.unmarshalConfig buf Config.zero with
      | (_, some err) => (Config.zero, some err)
      | (cfg, none) => (cfg, none)

/-! ## The process state -/

/-- The state of the running process.
`cfg` is the package-level variable, `config` the local variable of `main` that the SIGHUP
goroutine captures. `log` is what the `log` package has written (message texts, oldest first).
`started` lists the commands for which `exec.Command(cmd).Output()` has been called, oldest
first. `loadCalls` counts the calls of `loadConfig`. `sigc` is the number of signals waiting in
the channel `sigc` (capacity 1) and `waiting` tells whether the goroutine is still blocked on
`<-sigc`. `world` is the state of everything outside the process that command executions act
on. `exit` is the exit status once the process has terminated. `blocked` counts the calls of
`hookHandler` that have not returned and never will, being stuck in `Output()` at line 177. -/
structure Proc (σ : Type) where
  cfg : Config
  config : Config
  log : List String
  started : List String
  loadCalls : Nat
  sigc : Nat
  waiting : Bool
  world : σ
  exit : Option Nat
  blocked : Nat
  deriving DecidableEq

/-- Appends one message to the log (`log.Println`, `log.Printf`). -/
def Proc.logMsg {σ : Type} (s : Proc σ) (msg : String) : Proc σ :=
  { s with log := s.log ++ [msg] }

/-- The call `log.Fatalf`: write the message, then `os.Exit(1)`. -/
def Proc.fatal {σ : Type} (s : Proc σ) (msg : String) : Proc σ :=
  { s with log := s.log ++ [msg], exit := some 1 }

/-! ## hookHandler (lines 151-186) -/

/-- An HTTP request as `hookHandler` sees it: the result of `ioutil.ReadAll(r.Body)`. -/
structure Request where
  data : Bytes
  readErr : Option String

/-- The inner loop `for _, cmd := range repo.Commands` (lines 175-184). The result is `true`
with the state after the loop when the loop has run to its end, and `false` with the state in
which the handler is stuck when an `Output()` call does not return. -/
def runCommands {σ : Type} (env : Env σ) : List String → Proc σ → Bool × Proc σ
  | [], s => (true, s)
  | cmd :: rest, s =>
    let r := env.output s.world cmd
    let s1 : Proc σ := { s with world := r.2, started := s.started ++ [cmd] }
    match r.1 with
    | none => (false, { s1 with blocked := s1.blocked + 1 })
    | some res =>
      match res.err with
      | some err => runCommands env rest (s1.logMsg ("Failed to execute command: " ++ err))
      | none =>
        runCommands env rest ((s1.logMsg ("Executed: " ++ cmd)).logMsg ("Output: " ++ res.out))

/-- The outer loop `for _, repo := range cfg.Repositories` (lines 169-185), over the slice
`repos` that was read from `cfg` when the loop began; the result is as for `runCommands`. -/
def scanRepositories {σ : Type} (env : Env σ) (name : String) :
    List ConfigRepository → Proc σ → Bool × Proc σ
  | [], s => (true, s)
  | repo :: rest, s =>
    if repo.Name != name then scanRepositories env name rest s
    else
      match runCommands env repo.Commands s with
      | (true, s1) => scanRepositories env name rest s1
      | (false, s1) => (false, s1)

/-- The function `hookHandler`. -/
def hookHandler {σ : Type} (env : Env σ) (r : Request) (s : Proc σ) : Proc σ :=
  match r.readErr with
  | some err => s.logMsg ("Failed to read request: " ++ err)
  | none =>
    match env.unmarshalWebhook r.data Webhook.zero with
    | (_, some err) => s.logMsg ("Failed to parse request: " ++ err)
    | (hook, none) => (scanRepositories env hook.Repository.Name s.cfg.Repositories s).2

/-! ## The SIGHUP goroutine (lines 92-104) -/

/-- The body of the goroutine after `<-sigc` has delivered a signal (lines 98-103):
`config, err = loadConfig(configFile)` assigns the local `config` of `main`; an error is
`log.Fatalf`, otherwise "config reloaded" is logged and the goroutine ends. -/
def sighupHandler {σ : Type} (env : Env σ) (fs : FileSystem) (configFile : String)
    (s : Proc σ) : Proc σ :=
  let r := loadConfig env fs configFile
  let s1 : Proc σ := { s with config := r.1, loadCalls := s.loadCalls + 1 }
  match r.2 with
  | some err => s1.fatal ("Failed to read config: " ++ err)
  | none => s1.logMsg "config reloaded"

/-- What `signal.Notify(sigc, syscall.SIGHUP)` does with an incoming SIGHUP: a non-blocking
send on `sigc`, whose capacity is 1 (`make(chan os.Signal, 1)`); the signal is dropped when
the channel is full. -/
def notifySIGHUP {σ : Type} (s : Proc σ) : Proc σ :=
  if s.sigc < 1 then { s with sigc := s.sigc + 1 } else s

/-- Runs the goroutine as far as it can go: when it is still blocked on `<-sigc` and a signal
is in the channel it receives it and runs its body once; it has no loop, so afterwards it is
finished (`waiting = false`). -/
def goroutineRun {σ : Type} (env : Env σ) (fs : FileSystem) (configFile : String)
    (s : Proc σ) : Proc σ :=
  if s.waiting && decide (0 < s.sigc) then
    sighupHandler env fs configFile { s with sigc := s.sigc - 1, waiting := false }
  else s

/-- One SIGHUP sent to the process while the file system is `fs`: nothing happens to a
terminated process; otherwise the signal is put on `sigc` and the goroutine runs. -/
def deliverSIGHUP {σ : Type} (env : Env σ) (configFile : String) (s : Proc σ)
    (fs : FileSystem) : Proc σ :=
  if s.exit.isSome then s else goroutineRun env fs configFile (notifySIGHUP s)

/-- SIGHUPs sent one after another, the i-th while the file system is the i-th of the list. -/
def deliverSIGHUPs {σ : Type} (env : Env σ) (configFile : String) (s : Proc σ)
    (fss : List FileSystem) : Proc σ :=
  fss.foldl (deliverSIGHUP env configFile) s

/-! ## main (lines 80-125) -/

/-- The state in which `main` begins. -/
def Proc.init {σ : Type} (w : σ) : Proc σ :=
  { cfg := Config.zero, config := Config.zero, log := [], started := [], loadCalls := 0,
    sigc := 0, waiting := false, world := w, exit := none, blocked := 0 }

/-- The function `main`, from its start until it either terminates the process or is blocked
in `http.ListenAndServe` serving requests (`exit = none`).
`configFile` is the value of the flag `-config` and `args` is `flag.Args()`.
`listenAndServe address` is `some err` when `http.ListenAndServe(address, nil)` returns `err`
and `none` when it serves. Returning from `main` ends the process with status 0. -/
def main {σ : Type} (env : Env σ) (fs : FileSystem) (listenAndServe : String → Option String)
    (configFile : String) (args : List String) (w : σ) : Proc σ :=
  let s0 : Proc σ := Proc.init w
  if args.length != 0 then s0.fatal "extra arguments provided"
  else
    let s1 : Proc σ := { s0 with waiting := true }
    let r := loadConfig env fs configFile
    let s2 : Proc σ := { s1 with cfg := r.1, loadCalls := s1.loadCalls + 1 }
    match r.2 with
    | some err => s2.fatal ("Failed to read config: " ++ err)
    | none =>
      let address := s2.cfg.Address ++ ":" ++ toString s2.cfg.Port
      let s3 := s2.logMsg ("Listening on " ++ address)
      match listenAndServe address with
      | some err => { s3.logMsg err with exit := some 0 }
      | none => s3

/-! ## The running server -/

/-- What can happen to the running process: an HTTP request arrives, or a SIGHUP is sent while
the file system is `fs`. -/
inductive Event where
  | request (r : Request)
  | sighup (fs : FileSystem)

/-- One event: the HTTP server calls `hookHandler` for a request, a SIGHUP goes to the
goroutine; a terminated process does nothing. -/
def step {σ : Type} (env : Env σ) (configFile : String) (s : Proc σ) : Event → Proc σ
  | .request r => if s.exit.isSome then s else hookHandler env r s
  | .sighup fs => deliverSIGHUP env configFile s fs

/-- A sequence of events, handled in order. -/
def run {σ : Type} (env : Env σ) (configFile : String) (s : Proc σ) (evs : List Event) :
    Proc σ :=
  evs.foldl (step env configFile) s

/-! ## The log lines of one command, as the claims give them -/

/-- The log lines the dispatcher claims give one command whose `Output()` call returned `res`:
one failure line when it returned an error, otherwise "Executed: " with the command and
"Output: " with the captured standard output. -/
def expectedLines (cmd : String) (res : ExecResult) : List String :=
  match res.err with
  | some err => ["Failed to execute command: " ++ err]
  | none => ["Executed: " ++ cmd, "Output: " ++ res.out]

/-! ## An instance of the environment

The general theorems hold for every `Env`. The concrete examples below are evaluated in the
following instance: a reader for JSON texts that follows `encoding/json` (UTF-8 input, the
JSON grammar, members matched to field names ignoring case, unknown members skipped, `null`
leaving a field as it is, a number accepted for an integer field only when it is written as an
integer in range), and a table of command outcomes. Its error messages are abbreviated, and on
an error it returns the value it was given (the program never reads it in that case). -/

namespace Example

/-- A parsed JSON value; a number keeps its literal. -/
inductive JVal where
  | null
  | bool (b : Bool)
  | num (lit : List Char)
  | str (s : String)
  | arr (xs : List JVal)
  | obj (kvs : List (String × JVal))

/-- The replacement character U+FFFD. -/
def replacementChar : Char := Char.ofNat 0xFFFD

/-- Whether `b` is a UTF-8 continuation byte within `lo..hi`. -/
def inRange (lo hi : Nat) (b : Byte) : Bool := decide (lo ≤ b.val) && decide (b.val ≤ hi)

/-- UTF-8 decoding as `utf8.DecodeRune` does it: a byte that does not begin a well-formed
sequence becomes U+FFFD and decoding goes on with the next byte. -/
def utf8Decode : Nat → Bytes → List Char
  | 0, _ => []
  | _ + 1, [] => []
  | fuel + 1, b0 :: rest =>
    if b0.val < 0x80 then Char.ofNat b0.val :: utf8Decode fuel rest
    else
      let lo1 := if b0.val = 0xE0 then 0xA0 else if b0.val = 0xF0 then 0x90 else 0x80
      let hi1 := if b0.val = 0xED then 0x9F else if b0.val = 0xF4 then 0x8F else 0xBF
      match rest with
      | b1 :: r1 =>
        if inRange 0xC2 0xDF b0 && inRange 0x80 0xBF b1 then
          Char.ofNat ((b0.val - 0xC0) * 64 + (b1.val - 0x80)) :: utf8Decode fuel r1
        else
          match r1 with
          | b2 :: r2 =>
            if inRange 0xE0 0xEF b0 && inRange lo1 hi1 b1 && inRange 0x80 0xBF b2 then
              Char.ofNat ((b0.val - 0xE0) * 4096 + (b1.val - 0x80) * 64 + (b2.val - 0x80))
                :: utf8Decode fuel r2
            else
              match r2 with
              | b3 :: r3 =>
                if inRange 0xF0 0xF4 b0 && inRange lo1 hi1 b1 && inRange 0x80 0xBF b2
                    && inRange 0x80 0xBF b3 then
                  Char.ofNat ((b0.val - 0xF0) * 262144 + (b1.val - 0x80) * 4096
                      + (b2.val - 0x80) * 64 + (b3.val - 0x80)) :: utf8Decode fuel r3
                else replacementChar :: utf8Decode fuel rest
              | [] => replacementChar :: utf8Decode fuel rest
          | [] => replacementChar :: utf8Decode fuel rest
      | [] => [replacementChar]

/-- The syntax error for the input that is left: at its end, or at its first character. -/
def syntaxError (cs : List Char) (context : String) : String :=
  match cs with
  | [] => "unexpected end of JSON input"
  | c :: _ => "invalid character '" ++ String.singleton c ++ "' " ++ context

/-- Skips JSON white space. -/
def skipWs : List Char → List Char
  | c :: cs => if c = ' ' ∨ c = '\t' ∨ c = '\n' ∨ c = '\r' then skipWs cs else c :: cs
  | [] => []

/-- The leading decimal digits and what follows them. -/
def takeDigits : List Char → List Char × List Char
  | c :: cs =>
    if c.isDigit then ((takeDigits cs).1.cons c, (takeDigits cs).2) else ([], c :: cs)
  | [] => ([], [])

/-- The value of a hexadecimal digit. -/
def hexVal (c : Char) : Option Nat :=
  if c.isDigit then some (c.toNat - 48)
  else if 'a' ≤ c ∧ c ≤ 'f' then some (c.toNat - 87)
  else if 'A' ≤ c ∧ c ≤ 'F' then some (c.toNat - 55)
  else none

/-- Four hexadecimal digits. -/
def hex4 : List Char → Option (Nat × List Char)
  | a :: b :: c :: d :: rest =>
    match hexVal a, hexVal b, hexVal c, hexVal d with
    | some x, some y, some z, some w => some (x * 4096 + y * 256 + z * 16 + w, rest)
    | _, _, _, _ => none
  | _ => none

/-- Whether `u` is a UTF-16 surrogate. -/
def isSurrogate (u : Nat) : Bool := decide (0xD800 ≤ u) && decide (u < 0xE000)

/-- The rest of a string literal after its opening quote; `acc` holds what was read, newest
first. -/
def parseStringBody : Nat → List Char → List Char → Except String (String × List Char)
  | 0, cs, _ => .error (syntaxError cs "in string literal")
  | _ + 1, [], _ => .error (syntaxError [] "in string literal")
  | fuel + 1, c :: cs, acc =>
    if c = '"' then .ok (String.mk acc.reverse, cs)
    else if c = '\\' then
      match cs with
      | [] => .error (syntaxError [] "in string escape code")
      | e :: cs1 =>
        if e = '"' ∨ e = '\\' ∨ e = '/' then parseStringBody fuel cs1 (e :: acc)
        else if e = 'b' then parseStringBody fuel cs1 (Char.ofNat 8 :: acc)
        else if e = 'f' then parseStringBody fuel cs1 (Char.ofNat 12 :: acc)
        else if e = 'n' then parseStringBody fuel cs1 ('\n' :: acc)
        else if e = 'r' then parseStringBody fuel cs1 ('\r' :: acc)
        else if e = 't' then parseStringBody fuel cs1 ('\t' :: acc)
        else if e = 'u' then
          match hex4 cs1 with
          | none => .error (syntaxError cs1 "in \\u hexadecimal character escape")
          | some (u, cs2) =>
            if isSurrogate u then
              match cs2 with
              | '\\' :: 'u' :: cs3 =>
                match hex4 cs3 with
                | some (v, cs4) =>
                  if u < 0xDC00 ∧ 0xDC00 ≤ v ∧ v < 0xE000 then
                    parseStringBody fuel cs4
                      (Char.ofNat (0x10000 + (u - 0xD800) * 1024 + (v - 0xDC00)) :: acc)
                  else parseStringBody fuel cs2 (replacementChar :: acc)
                | none => parseStringBody fuel cs2 (replacementChar :: acc)
              | _ => parseStringBody fuel cs2 (replacementChar :: acc)
            else parseStringBody fuel cs2 (Char.ofNat u :: acc)
        else .error (syntaxError (e :: cs1) "in string escape code")
    else if c.toNat < 0x20 then .error (syntaxError (c :: cs) "in string literal")
    else parseStringBody fuel cs (c :: acc)

/-- The exponent part of a number, if there is one. -/
def parseExponent (lit cs : List Char) : Except String (List Char × List Char) :=
  match cs with
  | e :: r =>
    if e = 'e' ∨ e = 'E' then
      let sign : List Char := match r with
        | '+' :: _ => ['+']
        | '-' :: _ => ['-']
        | _ => []
      let r1 := r.drop sign.length
      let d := takeDigits r1
      if d.1.isEmpty then .error (syntaxError r1 "in exponent of numeric literal")
      else .ok (lit ++ e :: sign ++ d.1, d.2)
    else .ok (lit, cs)
  | [] => .ok (lit, cs)

/-- The fraction and exponent parts of a number, if there are any. -/
def parseFraction (lit cs : List Char) : Except String (List Char × List Char) :=
  match cs with
  | '.' :: r =>
    let d := takeDigits r
    if d.1.isEmpty then .error (syntaxError r "after decimal point in numeric literal")
    else parseExponent (lit ++ '.' :: d.1) d.2
  | _ => parseExponent lit cs

/-- A number literal: `-? (0 | [1-9][0-9]*) (. [0-9]+)? ([eE] [+-]? [0-9]+)?`. -/
def parseNumber (cs : List Char) : Except String (List Char × List Char) :=
  let sign : List Char := match cs with
    | '-' :: _ => ['-']
    | _ => []
  let cs1 := cs.drop sign.length
  match cs1 with
  | '0' :: r => parseFraction (sign ++ ['0']) r
  | c :: _ =>
    if c.isDigit then parseFraction (sign ++ (takeDigits cs1).1) (takeDigits cs1).2
    else .error (syntaxError cs1 "in numeric literal")
  | [] => .error (syntaxError [] "in numeric literal")

/-- One of the literals `null`, `true`, `false`. -/
def parseLiteral (word : List Char) (v : JVal) (cs : List Char) :
    Except String (JVal × List Char) :=
  if word.isPrefixOf cs then .ok (v, cs.drop word.length)
  else if cs.length < word.length ∧ cs.isPrefixOf word then .error (syntaxError [] "")
  else .error (syntaxError cs "in literal")

mutual
/-- A JSON value, with white space before it allowed. -/
def parseValue : Nat → List Char → Except String (JVal × List Char)
  | 0, cs => .error (syntaxError cs "looking for beginning of value")
  | fuel + 1, cs =>
    match skipWs cs with
    | [] => .error (syntaxError [] "looking for beginning of value")
    | c :: rest =>
      if c = 'n' then parseLiteral "null".toList .null (c :: rest)
      else if c = 't' then parseLiteral "true".toList (.bool true) (c :: rest)
      else if c = 'f' then parseLiteral "false".toList (.bool false) (c :: rest)
      else if c = '"' then
        match parseStringBody rest.length rest [] with
        | .error e => .error e
        | .ok p => .ok (.str p.1, p.2)
      else if c = '[' then
        match skipWs rest with
        | ']' :: rest2 => .ok (.arr [], rest2)
        | _ =>
          match parseElements fuel rest with
          | .error e => .error e
          | .ok p => .ok (.arr p.1, p.2)
      else if c = '{' then
        match skipWs rest with
        | '}' :: rest2 => .ok (.obj [], rest2)
        | _ =>
          match parseMembers fuel rest with
          | .error e => .error e
          | .ok p => .ok (.obj p.1, p.2)
      else if c = '-' ∨ c.isDigit then
        match parseNumber (c :: rest) with
        | .error e => .error e
        | .ok p => .ok (.num p.1, p.2)
      else .error (syntaxError (c :: rest) "looking for beginning of value")
/-- The elements of a non-empty array, up to and including its closing bracket. -/
def parseElements : Nat → List Char → Except String (List JVal × List Char)
  | 0, cs => .error (syntaxError cs "looking for beginning of value")
  | fuel + 1, cs =>
    match parseValue fuel cs with
    | .error e => .error e
    | .ok (v, rest) =>
      match skipWs rest with
      | ',' :: rest2 =>
        match parseElements fuel rest2 with
        | .error e => .error e
        | .ok p => .ok (v :: p.1, p.2)
      | ']' :: rest2 => .ok ([v], rest2)
      | rest2 => .error (syntaxError rest2 "after array element")
/-- The members of a non-empty object, up to and including its closing brace. -/
def parseMembers : Nat → List Char → Except String (List (String × JVal) × List Char)
  | 0, cs => .error (syntaxError cs "looking for beginning of object key string")
  | fuel + 1, cs =>
    match skipWs cs with
    | '"' :: rest =>
      match parseStringBody rest.length rest [] with
      | .error e => .error e
      | .ok (k, rest2) =>
        match skipWs rest2 with
        | ':' :: rest3 =>
          match parseValue fuel rest3 with
          | .error e => .error e
          | .ok (v, rest4) =>
            match skipWs rest4 with
            | ',' :: rest5 =>
              match parseMembers fuel rest5 with
              | .error e => .error e
              | .ok p => .ok ((k, v) :: p.1, p.2)
            | '}' :: rest5 => .ok ([(k, v)], rest5)
            | rest5 => .error (syntaxError rest5 "after object key:value pair")
        | rest3 => .error (syntaxError rest3 "after object key")
    | rest => .error (syntaxError rest "looking for beginning of object key string")
end

/-- A whole JSON text: one value with white space around it. -/
def parseJSON (data : Bytes) : Except String JVal :=
  let cs := utf8Decode data.length data
  match parseValue (2 * cs.length + 2) cs with
  | .error e => .error e
  | .ok (v, rest) =>
    match skipWs rest with
    | [] => .ok v
    | rest2 => .error (syntaxError rest2 "after top-level value")

/-- The kind of a JSON value, as error messages name it. -/
def JVal.kind : JVal → String
  | .null => "null"
  | .bool _ => "bool"
  | .num _ => "number"
  | .str _ => "string"
  | .arr _ => "array"
  | .obj _ => "object"

/-- The error for a JSON value that does not fit the Go type `ty`. -/
def typeError (v : JVal) (ty : String) : String :=
  "json: cannot unmarshal " ++ v.kind ++ " into Go value of type " ++ ty

/-- Case folding of member names: ASCII letters to lower case, and the two other characters
that fold to an ASCII letter (U+212A to `k`, U+017F to `s`). -/
def foldChar (c : Char) : Char :=
  if c.toNat = 0x212A then 'k' else if c.toNat = 0x17F then 's' else c.toLower

/-- A member name, folded. -/
def foldName (k : String) : String := String.mk (k.toList.map foldChar)

/-- The value of a string of decimal digits. -/
def digitsValue (ds : List Char) : Nat := ds.foldl (fun n c => n * 10 + (c.toNat - 48)) 0

/-- The integer a number literal denotes, when it is written as an integer. -/
def intOfLiteral (lit : List Char) : Option Int :=
  match lit with
  | '-' :: ds => if ds.all Char.isDigit then some (-(digitsValue ds : Int)) else none
  | ds => if ds.all Char.isDigit then some (digitsValue ds : Int) else none

/-- Decoding into a `string` that holds `cur`. -/
def decodeString (v : JVal) (cur : String) : Except String String :=
  match v with
  | .null => .ok cur
  | .str s => .ok s
  | _ => .error (typeError v "string")

/-- Decoding into a 64-bit signed integer (`int64`, and `int` on a 64-bit platform) that
holds `cur`. -/
def decodeInt (v : JVal) (cur : Int) : Except String Int :=
  match v with
  | .null => .ok cur
  | .num lit =>
    match intOfLiteral lit with
    | some n =>
      if -(2 : Int) ^ 63 ≤ n ∧ n < (2 : Int) ^ 63 then .ok n else .error (typeError v "int64")
    | none => .error (typeError v "int64")
  | _ => .error (typeError v "int64")

/-- The elements of an array, each decoded into a fresh `zero`. -/
def decodeElements {α : Type} (elem : JVal → α → Except String α) (zero : α) :
    List JVal → Except String (List α)
  | [] => .ok []
  | x :: xs =>
    match elem x zero with
    | .error e => .error e
    | .ok a =>
      match decodeElements elem zero xs with
      | .error e => .error e
      | .ok as => .ok (a :: as)

/-- Decoding into a slice: `null` gives the nil slice, an array gives its elements. -/
def decodeSlice {α : Type} (elem : JVal → α → Except String α) (zero : α) (ty : String)
    (v : JVal) : Except String (List α) :=
  match v with
  | .null => .ok []
  | .arr xs => decodeElements elem zero xs
  | _ => .error (typeError v ty)

/-- The members of an object, in order, each handed with its folded name to `field`. -/
def decodeMembers {α : Type} (field : String → JVal → α → Except String α) :
    List (String × JVal) → α → Except String α
  | [], a => .ok a
  | (k, v) :: rest, a =>
    match field (foldName k) v a with
    | .error e => .error e
    | .ok a1 => decodeMembers field rest a1

/-- Decoding into a struct that holds `cur`: `null` leaves it, an object sets the fields its
members name. -/
def decodeStruct {α : Type} (field : String → JVal → α → Except String α) (ty : String)
    (v : JVal) (cur : α) : Except String α :=
  match v with
  | .null => .ok cur
  | .obj kvs => decodeMembers field kvs cur
  | _ => .error (typeError v ty)

/-- The fields of `ConfigRepository`. -/
def configRepositoryField (k : String) (v : JVal) (r : ConfigRepository) :
    Except String ConfigRepository :=
  if k = "name" then (decodeString v r.Name).map fun x => { r with Name := x }
  else if k = "commands" then
    (decodeSlice decodeString "" "[]string" v).map fun x => { r with Commands := x }
  else .ok r

/-- The fields of `Config`. -/
def configField (k : String) (v : JVal) (c : Config) : Except String Config :=
  if k = "address" then (decodeString v c.Address).map fun x => { c with Address := x }
  else if k = "port" then (decodeInt v c.Port).map fun x => { c with Port := x }
  else if k = "repositories" then
    (decodeSlice (decodeStruct configRepositoryField "main.ConfigRepository")
      { Name := "", Commands := [] } "[]main.ConfigRepository" v).map
      fun x => { c with Repositories := x }
  else .ok c

/-- The fields of `GitlabRepository`. -/
def gitlabRepositoryField (k : String) (v : JVal) (r : GitlabRepository) :
    Except String GitlabRepository :=
  if k = "name" then (decodeString v r.Name).map fun x => { r with Name := x }
  else if k = "url" then (decodeString v r.URL).map fun x => { r with URL := x }
  else if k = "description" then
    (decodeString v r.Description).map fun x => { r with Description := x }
  else if k = "home" then (decodeString v r.Home).map fun x => { r with Home := x }
  else .ok r

/-- The fields of `Author`. -/
def authorField (k : String) (v : JVal) (a : Author) : Except String Author :=
  if k = "name" then (decodeString v a.Name).map fun x => { a with Name := x }
  else if k = "email" then (decodeString v a.Email).map fun x => { a with Email := x }
  else .ok a

/-- The fields of `Commit`. -/
def commitField (k : String) (v : JVal) (c : Commit) : Except String Commit :=
  if k = "id" then (decodeString v c.ID).map fun x => { c with ID := x }
  else if k = "message" then (decodeString v c.Message).map fun x => { c with Message := x }
  else if k = "timestamp" then
    (decodeString v c.Timestamp).map fun x => { c with Timestamp := x }
  else if k = "url" then (decodeString v c.URL).map fun x => { c with URL := x }
  else if k = "author" then
    (decodeStruct authorField "main.Author" v c.Author).map fun x => { c with Author := x }
  else .ok c

/-- The fields of `Webhook`. -/
def webhookField (k : String) (v : JVal) (h : Webhook) : Except String Webhook :=
  if k = "before" then (decodeString v h.Before).map fun x => { h with Before := x }
  else if k = "after" then (decodeString v h.After).map fun x => { h with After := x }
  else if k = "ref" then (decodeString v h.Ref).map fun x => { h with Ref := x }
  else if k = "username" then (decodeString v h.Username).map fun x => { h with Username := x }
  else if k = "userid" then (decodeInt v h.UserID).map fun x => { h with UserID := x }
  else if k = "projectid" then (decodeInt v h.ProjectID).map fun x => { h with ProjectID := x }
  else if k = "repository" then
    (decodeStruct gitlabRepositoryField "main.GitlabRepository" v h.Repository).map
      fun x => { h with Repository := x }
  else if k = "commits" then
    (decodeSlice (decodeStruct commitField "main.Commit")
      { ID := "", Message := "", Timestamp := "", URL := "",
        Author := { Name := "", Email := "" } } "[]main.Commit" v).map
      fun x => { h with Commits := x }
  else if k = "totalcommitscount" then
    (decodeInt v h.TotalCommitsCount).map fun x => { h with TotalCommitsCount := x }
  else .ok h

/-- The call `json.Unmarshal(data, &v)` for a value decoded by `dec`. -/
def unmarshalWith {α : Type} (dec : JVal → α → Except String α) (data : Bytes) (v : α) :
    α × Option String :=
  match parseJSON data with
  | .error e => (v, some e)
  | .ok j =>
    match dec j v with
    | .error e => (v, some e)
    | .ok a => (a, none)

/-- The bytes of an ASCII text. -/
def asciiBytes (text : String) : Bytes := text.toList.map fun c => Fin.ofNat c.toNat

/-- The command outcomes of the examples: `/bin/echo-hi.sh` prints `hi` and succeeds,
`/bin/false` exits with status 1, `/bin/wait-forever.sh` never exits, everything else cannot
be started. -/
def exampleResult (cmd : String) : Option ExecResult :=
  if cmd = "/bin/echo-hi.sh" then some { out := "hi\n", err := none }
  else if cmd = "/bin/false" then some { out := "", err := some "exit status 1" }
  else if cmd = "/bin/wait-forever.sh" then none
  else some { out := "", err := some ("fork/exec " ++ cmd ++ ": no such file or directory") }

/-- The outcomes `exampleResult` over a world without state. -/
def exampleOutput (w : Unit) (cmd : String) : Option ExecResult × Unit :=
  (exampleResult cmd, w)

/-- The environment of the examples. -/
def env : Env Unit :=
  { unmarshalConfig := unmarshalWith (decodeStruct configField "main.Config")
    unmarshalWebhook := unmarshalWith (decodeStruct webhookField "main.Webhook")
    output := exampleOutput }

/-- The environment of the examples over a world that records what is executed: the world is
the list of the commands the operating system has been asked to run, oldest first, and every
`Output()` call adds its command to it. -/
def recordingEnv : Env (List String) :=
  { unmarshalConfig := env.unmarshalConfig
    unmarshalWebhook := env.unmarshalWebhook
    output := fun w cmd => (exampleResult cmd, w ++ [cmd]) }

/-- The configuration file of the examples. -/
def demoConfigText : String :=
  "\x7b\"Address\":\"127.0.0.1\",\"Port\":9000,\"Repositories\":[\x7b\"Name\":\"demo\","
    ++ "\"Commands\":[\"/bin/echo-hi.sh\"]\x7d]\x7d"

/-- The configuration that `demoConfigText` denotes. -/
def demoConfig : Config :=
  { Address := "127.0.0.1", Port := 9000,
    Repositories := [{ Name := "demo", Commands := ["/bin/echo-hi.sh"] }] }

/-- A file system in which `config.json` is a regular file with the given text and no other
path exists. -/
def fsWith (text : String) : FileSystem := fun path =>
  if path = "config.json" then .regular (asciiBytes text)
  else .missing ("open " ++ path ++ ": no such file or directory")

/-- The server started with no arguments on `fsWith text`, listening. -/
def serverOn (text : String) : Proc Unit :=
  main env (fsWith text) (fun _ => none) "config.json" [] ()

/-- The server started with no arguments on `fsWith text` in the recording environment,
listening; nothing has been executed yet. -/
def recordingServerOn (text : String) : Proc (List String) :=
  main recordingEnv (fsWith text) (fun _ => none) "config.json" [] []

/-- A request whose body is the given text. -/
def requestOf (text : String) : Request := { data := asciiBytes text, readErr := none }

/-- The webhook with the given repository name and nothing else. -/
def hookNamed (name : String) : Webhook :=
  { Webhook.zero with Repository := { Webhook.zero.Repository with Name := name } }

/-- A configuration file whose entry `demo` has a command that exits with status 1 followed
by one that succeeds. -/
def failFirstText : String :=
  "\x7b\"Address\":\"127.0.0.1\",\"Port\":9000,\"Repositories\":[\x7b\"Name\":\"demo\","
    ++ "\"Commands\":[\"/bin/false\",\"/bin/echo-hi.sh\"]\x7d]\x7d"

/-- A configuration file whose entry `demo` has a command that never exits followed by one
that succeeds. -/
def waitFirstText : String :=
  "\x7b\"Address\":\"127.0.0.1\",\"Port\":9000,\"Repositories\":[\x7b\"Name\":\"demo\","
    ++ "\"Commands\":[\"/bin/wait-forever.sh\",\"/bin/echo-hi.sh\"]\x7d]\x7d"

/-- The body of a push to the repository `demo`. -/
def demoBody : String := "\x7b\"repository\":\x7b\"name\":\"demo\"\x7d\x7d"

/-- A configuration file of more than 1024 bytes: the entry `demo` with sixty commands. -/
def longConfigText : String :=
  "\x7b\"Address\":\"127.0.0.1\",\"Port\":9000,\"Repositories\":[\x7b\"Name\":\"demo\","
    ++ "\"Commands\":[" ++ ",".intercalate (List.replicate 60 "\"/bin/echo-hi.sh\"")
    ++ "]\x7d]\x7d"

/-- The configuration that `longConfigText` denotes. -/
def longConfig : Config :=
  { Address := "127.0.0.1", Port := 9000,
    Repositories := [{ Name := "demo", Commands := List.replicate 60 "/bin/echo-hi.sh" }] }

/-- A configuration file that names the repository `other` instead of `demo`. -/
def otherConfigText : String :=
  "\x7b\"Address\":\"127.0.0.1\",\"Port\":9000,\"Repositories\":[\x7b\"Name\":\"other\","
    ++ "\"Commands\":[\"/bin/echo-hi.sh\"]\x7d]\x7d"

/-- The configuration that `otherConfigText` denotes. -/
def otherConfig : Config :=
  { Address := "127.0.0.1", Port := 9000,
    Repositories := [{ Name := "other", Commands := ["/bin/echo-hi.sh"] }] }

/-- The body of a push to the repository `other`. -/
def otherBody : String := "\x7b\"repository\":\x7b\"name\":\"other\"\x7d\x7d"

/-- A file system without any file. -/
def fsEmpty : FileSystem := fun path =>
  .missing ("open " ++ path ++ ": no such file or directory")

end Example

/-! ## Shared lemmas -/

/-- The commands of the entries of `repos` named `name`, concatenated in order. -/
theorem matching_cons (name : String) (repo : ConfigRepository) (rest : List ConfigRepository) :
    (((repo :: rest).filter (fun e => decide (e.Name = name))).map (·.Commands)).flatten
      = (if repo.Name = name then repo.Commands else [])
        ++ ((rest.filter (fun e => decide (e.Name = name))).map (·.Commands)).flatten := by
  by_cases h : repo.Name = name <;> simp [List.filter_cons, h]

/-- Running `a ++ b` is running `a` and, unless that got stuck, running `b`. -/
theorem runCommands_append {σ : Type} (env : Env σ) (a b : List String) (s : Proc σ) :
    runCommands env (a ++ b) s
      = match runCommands env a s with
        | (true, s1) => runCommands env b s1
        | (false, s1) => (false, s1) := by
  induction a generalizing s with
  | nil => rfl
  | cons cmd rest ih =>
    simp only [List.cons_append, runCommands]
    split
    · rfl
    · split <;> exact ih _

/-- The outer loop runs, as one command list, the commands of all matching entries. -/
theorem scanRepositories_eq_runCommands {σ : Type} (env : Env σ) (name : String)
    (repos : List ConfigRepository) (s : Proc σ) :
    scanRepositories env name repos s
      = runCommands env
          (((repos.filter (fun e => decide (e.Name = name))).map (·.Commands)).flatten) s := by
  induction repos generalizing s with
  | nil => rfl
  | cons repo rest ih =>
    rw [matching_cons, runCommands_append]
    by_cases h : repo.Name = name
    · simp only [scanRepositories, h, bne_self_eq_false, Bool.false_eq_true, if_false, if_true]
      rcases runCommands env repo.Commands s with ⟨_ | _, s1⟩
      · rfl
      · exact ih s1
    · simp [scanRepositories, h, ih, runCommands]

/-- When every `Output()` call returns, the inner loop runs to its end: every command has been
started, each `Output()` call was made once and in order, and the handler is not stuck. -/
theorem runCommands_returns {σ : Type} (env : Env σ) (cmds : List String) (s : Proc σ)
    (hterm : ∀ w, ∀ cmd ∈ cmds, (env.output w cmd).1 ≠ none) :
    (runCommands env cmds s).1 = true
    ∧ (runCommands env cmds s).2.started = s.started ++ cmds
    ∧ (runCommands env cmds s).2.world = cmds.foldl (fun w cmd => (env.output w cmd).2) s.world
    ∧ (runCommands env cmds s).2.blocked = s.blocked := by
  induction cmds generalizing s with
  | nil => simp [runCommands]
  | cons cmd rest ih =>
    have hrest : ∀ w, ∀ c ∈ rest, (env.output w c).1 ≠ none :=
      fun w c hc => hterm w c (List.mem_cons_of_mem cmd hc)
    have h := fun S => ih S hrest
    rcases hr : (env.output s.world cmd).1 with _ | res
    · exact absurd hr (hterm s.world cmd (List.mem_cons_self cmd rest))
    · simp only [runCommands, List.foldl_cons, hr]
      rcases he : res.err with _ | err
      · simp only []
        refine ⟨(h _).1, ?_, ?_, ?_⟩
        · rw [(h _).2.1]; simp [Proc.logMsg]
        · rw [(h _).2.2.1]; simp [Proc.logMsg]
        · rw [(h _).2.2.2]; simp [Proc.logMsg]
      · simp only []
        refine ⟨(h _).1, ?_, ?_, ?_⟩
        · rw [(h _).2.1]; simp [Proc.logMsg]
        · rw [(h _).2.2.1]; simp [Proc.logMsg]
        · rw [(h _).2.2.2]; simp [Proc.logMsg]

/-- When every command's `Output()` call returns what `outcome` assigns to the command, the
log gains, command by command, the lines of `expectedLines`. -/
theorem runCommands_log {σ : Type} (env : Env σ) (outcome : String → ExecResult)
    (cmds : List String) (s : Proc σ)
    (hout : ∀ w, ∀ cmd ∈ cmds, (env.output w cmd).1 = some (outcome cmd)) :
    (runCommands env cmds s).2.log
      = s.log ++ (cmds.map (fun cmd => expectedLines cmd (outcome cmd))).flatten := by
  induction cmds generalizing s with
  | nil => simp [runCommands]
  | cons cmd rest ih =>
    have hrest : ∀ w, ∀ c ∈ rest, (env.output w c).1 = some (outcome c) :=
      fun w c hc => hout w c (List.mem_cons_of_mem cmd hc)
    have hr := hout s.world cmd (List.mem_cons_self cmd rest)
    have h := fun S => ih S hrest
    have hl : expectedLines cmd (outcome cmd)
        = match (outcome cmd).err with
          | some err => ["Failed to execute command: " ++ err]
          | none => ["Executed: " ++ cmd, "Output: " ++ (outcome cmd).out] := rfl
    simp only [runCommands, hr, List.map_cons, List.flatten_cons, hl]
    rcases he : (outcome cmd).err with _ | err
    · simp only []
      rw [h _]; simp [Proc.logMsg]
    · simp only []
      rw [h _]; simp [Proc.logMsg]

/-- What `hookHandler` does with a request that is read and decoded. -/
theorem hookHandler_decoded {σ : Type} (env : Env σ) (r : Request) (s : Proc σ)
    (hook : Webhook) (hread : r.readErr = none)
    (hdec : env.unmarshalWebhook r.data Webhook.zero = (hook, none)) :
    hookHandler env r s
      = (runCommands env
          (((s.cfg.Repositories.filter
              (fun e => decide (e.Name = hook.Repository.Name))).map (·.Commands)).flatten)
          s).2 := by
  simp only [hookHandler, hread, hdec]
  rw [scanRepositories_eq_runCommands env _ _ s]

/-- What `hookHandler` does with a request that cannot be read or decoded: one log line. -/
theorem hookHandler_rejected {σ : Type} (env : Env σ) (r : Request) (s : Proc σ) :
    (∀ e, r.readErr = some e → hookHandler env r s = s.logMsg ("Failed to read request: " ++ e))
    ∧ (∀ e v, r.readErr = none → env.unmarshalWebhook r.data Webhook.zero = (v, some e) →
        hookHandler env r s = s.logMsg ("Failed to parse request: " ++ e)) := by
  constructor
  · intro e h
    simp [hookHandler, h]
  · intro e v h hd
    simp [hookHandler, h, hd]

/-- What `loadConfig` returns, by what the path names. -/
theorem loadConfig_cases {σ : Type} (env : Env σ) (fs : FileSystem) (configFile : String) :
    (∀ e, fs configFile = .missing e → loadConfig env fs configFile = (Config.zero, some e))
    ∧ (∀ e, fs configFile = .unreadable e → loadConfig env fs configFile = (Config.zero, some e))
    ∧ (fs configFile = .regular [] → loadConfig env fs configFile = (Config.zero, some ioEOF))
    ∧ (∀ c, fs configFile = .regular c → c ≠ [] →
        loadConfig env fs configFile
          = match env.unmarshalConfig (c.take 1024) Config.zero with
            | (_, some err) => (Config.zero, some err)
            | (cfg, none) => (cfg, none)) := by
  refine ⟨?_, ?_, ?_, ?_⟩
  · intro e h
    simp [loadConfig, osOpen, h]
  · intro e h
    simp [loadConfig, osOpen, h, fileRead]
  · intro h
    simp [loadConfig, osOpen, h, fileRead]
  · intro c h hc
    cases c with
    | nil => exact absurd rfl hc
    | cons b bs => simp [loadConfig, osOpen, h, fileRead]

/-- Once the goroutine has finished, SIGHUPs change nothing but the channel. -/
theorem deliverSIGHUPs_finished {σ : Type} (env : Env σ) (configFile : String)
    (fss : List FileSystem) (s : Proc σ) (hw : s.waiting = false) :
    (deliverSIGHUPs env configFile s fss).waiting = false
    ∧ (deliverSIGHUPs env configFile s fss).loadCalls = s.loadCalls
    ∧ (deliverSIGHUPs env configFile s fss).log = s.log
    ∧ (deliverSIGHUPs env configFile s fss).cfg = s.cfg
    ∧ (deliverSIGHUPs env configFile s fss).exit = s.exit := by
  induction fss generalizing s with
  | nil => simp [deliverSIGHUPs, hw]
  | cons fs rest ih =>
    have hstep : (deliverSIGHUP env configFile s fs).waiting = false
        ∧ (deliverSIGHUP env configFile s fs).loadCalls = s.loadCalls
        ∧ (deliverSIGHUP env configFile s fs).log = s.log
        ∧ (deliverSIGHUP env configFile s fs).cfg = s.cfg
        ∧ (deliverSIGHUP env configFile s fs).exit = s.exit := by
      unfold deliverSIGHUP goroutineRun notifySIGHUP
      by_cases he : s.exit.isSome = true
      · simp [he, hw]
      · by_cases hs : s.sigc < 1 <;> simp [he, hs, hw]
    have h := ih (deliverSIGHUP env configFile s fs) hstep.1
    simp only [deliverSIGHUPs, List.foldl_cons] at h ⊢
    rw [h.2.1, h.2.2.1, h.2.2.2.1, h.2.2.2.2]
    exact ⟨h.1, hstep.2.1, hstep.2.2.1, hstep.2.2.2.1, hstep.2.2.2.2⟩

/-- The goroutine body never assigns the package-level `cfg`. -/
theorem sighupHandler_cfg {σ : Type} (env : Env σ) (fs : FileSystem) (configFile : String)
    (s : Proc σ) : (sighupHandler env fs configFile s).cfg = s.cfg := by
  simp only [sighupHandler]
  split <;> rfl

/-! ## The dispatcher: claims C1, C2, C3, C9 -/

/-- C1 as stated fails: the entry `demo` has the commands `/bin/wait-forever.sh`, which never
exits, and `/bin/echo-hi.sh`. For a push to `demo` the handler starts the first command and
stays in its `Output()` call: the second command is never started, so the commands started
are not the concatenation of the matching `Commands`. -/
theorem hookHandler_stops_at_command_that_never_exits :
    (Example.requestOf Example.demoBody).readErr = none
    ∧ Example.recordingEnv.unmarshalWebhook (Example.requestOf Example.demoBody).data
        Webhook.zero = (Example.hookNamed "demo", none)
    ∧ (Example.recordingServerOn Example.waitFirstText).cfg.Repositories
        = [{ Name := "demo", Commands := ["/bin/wait-forever.sh", "/bin/echo-hi.sh"] }]
    ∧ (Example.recordingEnv.output [] "/bin/wait-forever.sh").1 = none
    ∧ (hookHandler Example.recordingEnv (Example.requestOf Example.demoBody)
        (Example.recordingServerOn Example.waitFirstText)).started = ["/bin/wait-forever.sh"]
    ∧ (hookHandler Example.recordingEnv (Example.requestOf Example.demoBody)
        (Example.recordingServerOn Example.waitFirstText)).world = ["/bin/wait-forever.sh"]
    ∧ (hookHandler Example.recordingEnv (Example.requestOf Example.demoBody)
        (Example.recordingServerOn Example.waitFirstText)).blocked = 1
    ∧ ¬ (hookHandler Example.recordingEnv (Example.requestOf Example.demoBody)
        (Example.recordingServerOn Example.waitFirstText)).started
        = (Example.recordingServerOn Example.waitFirstText).started
          ++ (((Example.recordingServerOn Example.waitFirstText).cfg.Repositories.filter
                (fun e => decide (e.Name = "demo"))).map (·.Commands)).flatten :=
  ⟨rfl, by decide, by decide, by decide, by decide, by decide, by decide, by decide⟩

/-- C1, amended: for every configuration and every request whose body decodes to a payload
with repository name `R`, provided every command of the matching entries exits when it is run
(its `Output()` call returns), the commands `hookHandler` starts are exactly `cmds`, the
concatenation, in configuration order, of the `Commands` of all entries whose `Name` equals
`R`. Each is executed by one `Output()` call on the command string alone, in that order: the
world afterwards is the world after those calls, one per command. The handler returns. -/
theorem hookHandler_starts_all_matching {σ : Type} (env : Env σ) (r : Request) (s : Proc σ)
    (hook : Webhook) (R : String) (cmds : List String) (hread : r.readErr = none)
    (hdec : env.unmarshalWebhook r.data Webhook.zero = (hook, none))
    (hname : hook.Repository.Name = R)
    (hcmds : cmds = ((s.cfg.Repositories.filter (fun e => decide (e.Name = R))).map
      (·.Commands)).flatten)
    (hterm : ∀ w, ∀ cmd ∈ cmds, (env.output w cmd).1 ≠ none) :
    (hookHandler env r s).started = s.started ++ cmds
    ∧ (hookHandler env r s).world = cmds.foldl (fun w cmd => (env.output w cmd).2) s.world
    ∧ (hookHandler env r s).blocked = s.blocked := by
  subst hname hcmds
  rw [hookHandler_decoded env r s hook hread hdec]
  exact (runCommands_returns env _ s hterm).2

/-- C1, amended, at the configuration and body of the specification, in the environment that
records every execution: `/bin/echo-hi.sh` is executed exactly once. -/
theorem hookHandler_starts_all_matching_witness :
    (Example.requestOf Example.demoBody).readErr = none
    ∧ Example.recordingEnv.unmarshalWebhook (Example.requestOf Example.demoBody).data
        Webhook.zero = (Example.hookNamed "demo", none)
    ∧ (Example.recordingServerOn Example.demoConfigText).cfg = Example.demoConfig
    ∧ (∀ w, ∀ cmd ∈ ["/bin/echo-hi.sh"], (Example.recordingEnv.output w cmd).1 ≠ none)
    ∧ (hookHandler Example.recordingEnv (Example.requestOf Example.demoBody)
        (Example.recordingServerOn Example.demoConfigText)).started = ["/bin/echo-hi.sh"]
    ∧ (hookHandler Example.recordingEnv (Example.requestOf Example.demoBody)
        (Example.recordingServerOn Example.demoConfigText)).world = ["/bin/echo-hi.sh"]
    ∧ (hookHandler Example.recordingEnv (Example.requestOf Example.demoBody)
        (Example.recordingServerOn Example.demoConfigText)).blocked = 0 :=
  ⟨rfl, by decide, by decide,
    (by
      intro w cmd h
      rw [List.mem_singleton] at h
      subst h
      show Example.exampleResult "/bin/echo-hi.sh" ≠ none
      decide),
    (fun h => ⟨h.1.trans (by decide), h.2.1.trans (by decide), h.2.2.trans (by decide)⟩)
      (hookHandler_starts_all_matching Example.recordingEnv
        (Example.requestOf Example.demoBody)
        (Example.recordingServerOn Example.demoConfigText) (Example.hookNamed "demo") "demo"
        ["/bin/echo-hi.sh"] rfl (by decide) rfl (by decide)
        (by
          intro w cmd h
          rw [List.mem_singleton] at h
          subst h
          show Example.exampleResult "/bin/echo-hi.sh" ≠ none
          decide))⟩

/-- C2: command failure isolation. Take a request that decodes to a payload naming `R`, let
`cmds` be the commands of the matching entries, and let every `Output()` call return one of
the three outcomes (success, failure to start, non-zero exit). Then (1) every command of
`cmds` is started, by one `Output()` call each and in order, and the handler returns; (2) with
any other such outcomes and world the same commands are started, in particular with outcomes
that are all successes; (3) for every assignment `outcome` of outcomes to the commands, the
log gains, command by command, the failure line of a command that fails and "Executed: ..."
and "Output: ..." of a command that succeeds, so every failing command is logged and does not
stop the later ones; (4) when the one matching entry has the commands `[fail, succeed]`,
`fail` returns an error and `succeed` returns none, both are started and the log gains the
failure line, "Executed: succeed" and "Output: " followed by the captured output. -/
theorem hookHandler_failure_isolation {σ : Type} (env : Env σ) (r : Request) (s : Proc σ)
    (hook : Webhook) (R : String) (cmds : List String) (hread : r.readErr = none)
    (hdec : env.unmarshalWebhook r.data Webhook.zero = (hook, none))
    (hname : hook.Repository.Name = R)
    (hcmds : cmds = ((s.cfg.Repositories.filter (fun e => decide (e.Name = R))).map
      (·.Commands)).flatten)
    (hterm : ∀ w, ∀ cmd ∈ cmds, (env.output w cmd).1 ≠ none) :
    ((hookHandler env r s).started = s.started ++ cmds
      ∧ (hookHandler env r s).world = cmds.foldl (fun w cmd => (env.output w cmd).2) s.world
      ∧ (hookHandler env r s).blocked = s.blocked)
    ∧ (∀ (output1 : σ → String → Option ExecResult × σ) (w1 : σ),
        (∀ w, ∀ cmd ∈ cmds, (output1 w cmd).1 ≠ none) →
        (hookHandler { env with output := output1 } r { s with world := w1 }).started
          = (hookHandler env r s).started)
    ∧ (∀ outcome : String → ExecResult,
        (∀ w, ∀ cmd ∈ cmds, (env.output w cmd).1 = some (outcome cmd)) →
        (hookHandler env r s).log
          = s.log ++ (cmds.map (fun cmd => expectedLines cmd (outcome cmd))).flatten)
    ∧ (∀ (fail succeed out1 err1 out2 : String) (w1 w2 : σ),
        s.cfg.Repositories.filter (fun e => decide (e.Name = R))
          = [{ Name := R, Commands := [fail, succeed] }] →
        env.output s.world fail = (some { out := out1, err := some err1 }, w1) →
        env.output w1 succeed = (some { out := out2, err := none }, w2) →
        (hookHandler env r s).started = s.started ++ [fail, succeed]
        ∧ (hookHandler env r s).log
            = s.log ++ ["Failed to execute command: " ++ err1, "Executed: " ++ succeed,
                "Output: " ++ out2]) := by
  subst hname hcmds
  have hd := hookHandler_decoded env r s hook hread hdec
  refine ⟨?_, ?_, ?_, ?_⟩
  · rw [hd]
    exact (runCommands_returns env _ s hterm).2
  · intro output1 w1 h1
    rw [hd, hookHandler_decoded { env with output := output1 } r { s with world := w1 } hook
      hread hdec, (runCommands_returns env _ s hterm).2.1]
    exact (runCommands_returns { env with output := output1 } _ { s with world := w1 } h1).2.1
  · intro outcome hout
    rw [hd]
    exact runCommands_log env outcome _ s hout
  · intro fail succeed out1 err1 out2 w1 w2 hcfg h1 h2
    rw [hd, hcfg]
    simp [runCommands, h1, h2, Proc.logMsg]

/-- C2, at a configuration whose entry `demo` has the commands `/bin/false` (exits with
status 1) and `/bin/echo-hi.sh`, in the environment that records every execution. -/
theorem hookHandler_failure_isolation_witness :
    (Example.requestOf Example.demoBody).readErr = none
    ∧ Example.recordingEnv.unmarshalWebhook (Example.requestOf Example.demoBody).data
        Webhook.zero = (Example.hookNamed "demo", none)
    ∧ (Example.recordingServerOn Example.failFirstText).cfg.Repositories
        = [{ Name := "demo", Commands := ["/bin/false", "/bin/echo-hi.sh"] }]
    ∧ (∀ w, ∀ cmd ∈ ["/bin/false", "/bin/echo-hi.sh"],
        (Example.recordingEnv.output w cmd).1 ≠ none)
    ∧ (hookHandler Example.recordingEnv (Example.requestOf Example.demoBody)
        (Example.recordingServerOn Example.failFirstText)).started
        = ["/bin/false", "/bin/echo-hi.sh"]
    ∧ (hookHandler Example.recordingEnv (Example.requestOf Example.demoBody)
        (Example.recordingServerOn Example.failFirstText)).world
        = ["/bin/false", "/bin/echo-hi.sh"]
    ∧ (hookHandler Example.recordingEnv (Example.requestOf Example.demoBody)
        (Example.recordingServerOn Example.failFirstText)).log
        = ["Listening on 127.0.0.1:9000", "Failed to execute command: exit status 1",
            "Executed: /bin/echo-hi.sh", "Output: hi\n"] :=
  ⟨rfl, by decide, by decide,
    (by
      intro w cmd h
      simp only [List.mem_cons, List.mem_singleton, List.not_mem_nil, or_false] at h
      rcases h with rfl | rfl
      · show Example.exampleResult "/bin/false" ≠ none
        decide
      · show Example.exampleResult "/bin/echo-hi.sh" ≠ none
        decide),
    (fun h => ⟨h.1.1.trans (by decide), h.1.2.1.trans (by decide),
        (h.2.2.2 "/bin/false" "/bin/echo-hi.sh" "" "exit status 1" "hi\n" ["/bin/false"]
          ["/bin/false", "/bin/echo-hi.sh"] (by decide) (by decide) (by decide)).2.trans
          (by decide)⟩)
      (hookHandler_failure_isolation Example.recordingEnv
        (Example.requestOf Example.demoBody)
        (Example.recordingServerOn Example.failFirstText) (Example.hookNamed "demo") "demo"
        ["/bin/false", "/bin/echo-hi.sh"] rfl (by decide) rfl (by decide)
        (by
          intro w cmd h
          simp only [List.mem_cons, List.mem_singleton, List.not_mem_nil, or_false] at h
          rcases h with rfl | rfl
          · show Example.exampleResult "/bin/false" ≠ none
            decide
          · show Example.exampleResult "/bin/echo-hi.sh" ≠ none
            decide))⟩

/-- C3: a request whose body cannot be read, or does not decode, makes `hookHandler` append
exactly one log line ("Failed to read request: ..." or "Failed to parse request: ...") and
return: no command is started, the world is untouched, the process has not exited and `cfg`
is what it was, whatever the configuration is. -/
theorem hookHandler_bad_request {σ : Type} (env : Env σ) (r : Request) (s : Proc σ)
    (line : String)
    (hbad : (∃ e, r.readErr = some e ∧ line = "Failed to read request: " ++ e)
      ∨ (∃ e v, r.readErr = none ∧ env.unmarshalWebhook r.data Webhook.zero = (v, some e)
          ∧ line = "Failed to parse request: " ++ e)) :
    hookHandler env r s = { s with log := s.log ++ [line] } := by
  rcases hbad with ⟨e, hr, rfl⟩ | ⟨e, v, hr, hd, rfl⟩
  · exact (hookHandler_rejected env r s).1 e hr
  · exact (hookHandler_rejected env r s).2 e v hr hd

/-- C3, at a truncated body sent to the server of the specification's example. -/
theorem hookHandler_bad_request_witness :
    ((∃ e, (Example.requestOf "\x7b\"repository\":").readErr = some e
        ∧ "Failed to parse request: unexpected end of JSON input"
            = "Failed to read request: " ++ e)
      ∨ (∃ e v, (Example.requestOf "\x7b\"repository\":").readErr = none
          ∧ Example.env.unmarshalWebhook (Example.requestOf "\x7b\"repository\":").data
              Webhook.zero = (v, some e)
          ∧ "Failed to parse request: unexpected end of JSON input"
              = "Failed to parse request: " ++ e))
    ∧ hookHandler Example.env (Example.requestOf "\x7b\"repository\":")
        (Example.serverOn Example.demoConfigText)
      = { Example.serverOn Example.demoConfigText with
          log := ["Listening on 127.0.0.1:9000",
            "Failed to parse request: unexpected end of JSON input"] } :=
  ⟨Or.inr ⟨"unexpected end of JSON input", Webhook.zero, rfl, by decide, by decide⟩,
    (hookHandler_bad_request Example.env (Example.requestOf "\x7b\"repository\":")
      (Example.serverOn Example.demoConfigText)
      "Failed to parse request: unexpected end of JSON input"
      (Or.inr ⟨"unexpected end of JSON input", Webhook.zero, rfl, by decide, by decide⟩)).trans
      (by decide)⟩

/-- C9: when the request decodes to a payload whose repository name is the `Name` of no
configuration entry, `hookHandler` leaves the process exactly as it was: nothing is started,
nothing is logged, and it has not exited. -/
theorem hookHandler_no_match {σ : Type} (env : Env σ) (r : Request) (s : Proc σ)
    (hook : Webhook) (hread : r.readErr = none)
    (hdec : env.unmarshalWebhook r.data Webhook.zero = (hook, none))
    (hno : ∀ e ∈ s.cfg.Repositories, e.Name ≠ hook.Repository.Name) :
    hookHandler env r s = s := by
  rw [hookHandler_decoded env r s hook hread hdec]
  have hnil : s.cfg.Repositories.filter (fun e => decide (e.Name = hook.Repository.Name)) = [] := by
    rw [List.filter_eq_nil_iff]
    intro e he
    simpa using hno e he
  rw [hnil]
  rfl

/-- C9, at a payload without a repository name sent to the server of the specification's
example. -/
theorem hookHandler_no_match_witness :
    (Example.requestOf "\x7b\x7d").readErr = none
    ∧ Example.env.unmarshalWebhook (Example.requestOf "\x7b\x7d").data Webhook.zero
        = (Webhook.zero, none)
    ∧ (∀ e ∈ (Example.serverOn Example.demoConfigText).cfg.Repositories,
        e.Name ≠ Webhook.zero.Repository.Name)
    ∧ hookHandler Example.env (Example.requestOf "\x7b\x7d")
        (Example.serverOn Example.demoConfigText) = Example.serverOn Example.demoConfigText :=
  ⟨rfl, by decide, by decide,
    hookHandler_no_match Example.env (Example.requestOf "\x7b\x7d")
      (Example.serverOn Example.demoConfigText) Webhook.zero rfl (by decide) (by decide)⟩

/-! ## The configuration loader: claims C6, C8 -/

/-- C6 (the code departs from it): `loadConfig` hands the decoder the first 1024 bytes of a
non-empty regular file, not the whole file. At `longConfigText`, 1161 bytes that decode as a
whole to `longConfig`, `loadConfig` returns the zero `Config` and the decoder's error for the
truncated text. -/
theorem loadConfig_truncates_at_1024 :
    (∀ (σ : Type) (env : Env σ) (fs : FileSystem) (configFile : String) (c : Bytes),
      fs configFile = .regular c → c ≠ [] →
      loadConfig env fs configFile
        = match env.unmarshalConfig (c.take 1024) Config.zero with
          | (_, some err) => (Config.zero, some err)
          | (cfg, none) => (cfg, none))
    ∧ (Example.asciiBytes Example.longConfigText).length = 1161
    ∧ Example.env.unmarshalConfig (Example.asciiBytes Example.longConfigText) Config.zero
        = (Example.longConfig, none)
    ∧ loadConfig Example.env (Example.fsWith Example.longConfigText) "config.json"
        = (Config.zero, some "unexpected end of JSON input") :=
  ⟨fun _ env fs configFile => (loadConfig_cases env fs configFile).2.2.2, by decide, by decide,
    by decide⟩

/-- C8: `loadConfig` returns an error exactly when `os.Open` fails, or `file.Read` returns an
error, or `json.Unmarshal` of the bytes read returns an error; with an error the returned
`Config` is the zero value; without one it is the value decoded from the bytes read. An
existing, readable, empty file is an error: `file.Read` returns `io.EOF`. -/
theorem loadConfig_error_iff {σ : Type} (env : Env σ) (fs : FileSystem)
    (configFile : String) :
    ((loadConfig env fs configFile).2 ≠ none ↔
      (∃ e, osOpen fs configFile = .error e)
      ∨ (∃ f e, osOpen fs configFile = .ok f ∧ (fileRead f 1024).2 = some e)
      ∨ (∃ f e, osOpen fs configFile = .ok f ∧ (fileRead f 1024).2 = none
          ∧ (env.unmarshalConfig (fileRead f 1024).1 Config.zero).2 = some e))
    ∧ ((loadConfig env fs configFile).2 ≠ none → (loadConfig env fs configFile).1 = Config.zero)
    ∧ ((loadConfig env fs configFile).2 = none →
        ∃ f, osOpen fs configFile = .ok f ∧ (fileRead f 1024).2 = none
          ∧ env.unmarshalConfig (fileRead f 1024).1 Config.zero
              = ((loadConfig env fs configFile).1, none))
    ∧ (fs configFile = .regular [] → loadConfig env fs configFile = (Config.zero, some ioEOF)) := by
  refine ⟨?_, ?_, ?_, (loadConfig_cases env fs configFile).2.2.1⟩
  all_goals
    unfold loadConfig
    rcases ho : osOpen fs configFile with e | f
    · simp
    · rcases hr : fileRead f 1024 with ⟨buf, _ | e⟩
      · rcases hu : env.unmarshalConfig buf Config.zero with ⟨v, _ | e⟩ <;> simp [hr, hu]
      · simp [hr]

/-- C8, at the example file (loaded), and at an existing empty file (`io.EOF`). -/
theorem loadConfig_error_iff_witness :
    loadConfig Example.env (Example.fsWith Example.demoConfigText) "config.json"
      = (Example.demoConfig, none)
    ∧ ((loadConfig Example.env Example.fsEmpty "config.json").2 ≠ none ↔
        (∃ e, osOpen Example.fsEmpty "config.json" = .error e)
        ∨ (∃ f e, osOpen Example.fsEmpty "config.json" = .ok f ∧ (fileRead f 1024).2 = some e)
        ∨ (∃ f e, osOpen Example.fsEmpty "config.json" = .ok f ∧ (fileRead f 1024).2 = none
            ∧ (Example.env.unmarshalConfig (fileRead f 1024).1 Config.zero).2 = some e))
    ∧ loadConfig Example.env (Example.fsWith "") "config.json" = (Config.zero, some "EOF") :=
  ⟨by decide, (loadConfig_error_iff Example.env Example.fsEmpty "config.json").1,
    (loadConfig_error_iff Example.env (Example.fsWith "") "config.json").2.2.2 rfl⟩

/-! ## Reload on SIGHUP: claims C4, C5, C10 -/

/-- C4 (the code departs from it): the goroutine assigns the result of `loadConfig` to the
local `config` of `main` and never to the package-level `cfg` that `hookHandler` reads. With
the server started on configuration `demoConfig` and the file then holding `otherConfig`, after
the SIGHUP "config reloaded" is logged, `cfg` is still `demoConfig`, a push to `other` starts
nothing and a push to `demo` still starts its command. -/
theorem sighup_does_not_replace_cfg :
    (∀ (σ : Type) (env : Env σ) (fs : FileSystem) (configFile : String) (s : Proc σ),
      (sighupHandler env fs configFile s).cfg = s.cfg)
    ∧ (Example.serverOn Example.demoConfigText).cfg = Example.demoConfig
    ∧ loadConfig Example.env (Example.fsWith Example.otherConfigText) "config.json"
        = (Example.otherConfig, none)
    ∧ (deliverSIGHUP Example.env "config.json" (Example.serverOn Example.demoConfigText)
        (Example.fsWith Example.otherConfigText)).log
        = ["Listening on 127.0.0.1:9000", "config reloaded"]
    ∧ (deliverSIGHUP Example.env "config.json" (Example.serverOn Example.demoConfigText)
        (Example.fsWith Example.otherConfigText)).cfg = Example.demoConfig
    ∧ (deliverSIGHUP Example.env "config.json" (Example.serverOn Example.demoConfigText)
        (Example.fsWith Example.otherConfigText)).config = Example.otherConfig
    ∧ (run Example.env "config.json" (Example.serverOn Example.demoConfigText)
        [.sighup (Example.fsWith Example.otherConfigText),
          .request (Example.requestOf Example.otherBody)]).started = []
    ∧ (run Example.env "config.json" (Example.serverOn Example.demoConfigText)
        [.sighup (Example.fsWith Example.otherConfigText),
          .request (Example.requestOf Example.demoBody)]).started = ["/bin/echo-hi.sh"] :=
  ⟨fun _ env fs configFile s => sighupHandler_cfg env fs configFile s, by decide, by decide,
    by decide, by decide, by decide, by decide, by decide⟩

/-- C5 as stated fails: the server of the example is running, the configuration file is gone,
and the SIGHUP terminates the process with status 1. -/
theorem failed_reload_terminates :
    (Example.serverOn Example.demoConfigText).exit = none
    ∧ loadConfig Example.env Example.fsEmpty "config.json"
        = (Config.zero, some "open config.json: no such file or directory")
    ∧ (deliverSIGHUP Example.env "config.json" (Example.serverOn Example.demoConfigText)
        Example.fsEmpty).exit = some 1
    ∧ ¬ (deliverSIGHUP Example.env "config.json" (Example.serverOn Example.demoConfigText)
        Example.fsEmpty).exit = none :=
  ⟨by decide, by decide, by decide, by decide⟩

/-- C5, amended: when the `loadConfig` call of the SIGHUP handler returns an error, the
failure is logged as "Failed to read config: ..." and the process exits with status 1
(`log.Fatalf`); `cfg` is what it was and no command has been started. -/
theorem sighupHandler_failed_reload {σ : Type} (env : Env σ) (fs : FileSystem)
    (configFile : String) (s : Proc σ) (e : String)
    (herr : (loadConfig env fs configFile).2 = some e) :
    (sighupHandler env fs configFile s).exit = some 1
    ∧ (sighupHandler env fs configFile s).log = s.log ++ ["Failed to read config: " ++ e]
    ∧ (sighupHandler env fs configFile s).cfg = s.cfg
    ∧ (sighupHandler env fs configFile s).started = s.started := by
  simp [sighupHandler, herr, Proc.fatal]

/-- C5, amended, at the example server with the configuration file gone. -/
theorem sighupHandler_failed_reload_witness :
    (loadConfig Example.env Example.fsEmpty "config.json").2
        = some "open config.json: no such file or directory"
    ∧ (sighupHandler Example.env Example.fsEmpty "config.json"
        (Example.serverOn Example.demoConfigText)).exit = some 1
    ∧ (sighupHandler Example.env Example.fsEmpty "config.json"
        (Example.serverOn Example.demoConfigText)).log
        = ["Listening on 127.0.0.1:9000",
            "Failed to read config: open config.json: no such file or directory"]
    ∧ (sighupHandler Example.env Example.fsEmpty "config.json"
        (Example.serverOn Example.demoConfigText)).cfg = Example.demoConfig :=
  ⟨by decide,
    (sighupHandler_failed_reload Example.env Example.fsEmpty "config.json"
      (Example.serverOn Example.demoConfigText) "open config.json: no such file or directory"
      (by decide)).1,
    (sighupHandler_failed_reload Example.env Example.fsEmpty "config.json"
      (Example.serverOn Example.demoConfigText) "open config.json: no such file or directory"
      (by decide)).2.1.trans (by decide),
    (sighupHandler_failed_reload Example.env Example.fsEmpty "config.json"
      (Example.serverOn Example.demoConfigText) "open config.json: no such file or directory"
      (by decide)).2.2.1.trans (by decide)⟩

/-- The goroutine serves the first SIGHUP only. For a running process whose goroutine is
still waiting on the empty channel, `n ≥ 1` SIGHUPs sent one after another, each with a
loadable configuration file, cause exactly one call of `loadConfig` and exactly one
"config reloaded" log line; afterwards the goroutine has ended. -/
theorem reload_listener_serves_once {σ : Type} (env : Env σ) (configFile : String)
    (s : Proc σ) (fss : List FileSystem) (hrun : s.exit = none) (hwait : s.waiting = true)
    (hsig : s.sigc = 0) (hn : 1 ≤ fss.length)
    (hload : ∀ fs ∈ fss, (loadConfig env fs configFile).2 = none) :
    (deliverSIGHUPs env configFile s fss).loadCalls = s.loadCalls + 1
    ∧ (deliverSIGHUPs env configFile s fss).log = s.log ++ ["config reloaded"]
    ∧ (deliverSIGHUPs env configFile s fss).waiting = false := by
  cases fss with
  | nil => simp at hn
  | cons fs rest =>
    have hfs : (loadConfig env fs configFile).2 = none := hload fs (List.mem_cons_self fs rest)
    have h1 : (deliverSIGHUP env configFile s fs).waiting = false
        ∧ (deliverSIGHUP env configFile s fs).loadCalls = s.loadCalls + 1
        ∧ (deliverSIGHUP env configFile s fs).log = s.log ++ ["config reloaded"] := by
      simp [deliverSIGHUP, notifySIGHUP, goroutineRun, sighupHandler, hrun, hwait, hsig, hfs,
        Proc.logMsg]
    have h2 := deliverSIGHUPs_finished env configFile rest (deliverSIGHUP env configFile s fs)
      h1.1
    simp only [deliverSIGHUPs, List.foldl_cons] at h2 ⊢
    exact ⟨h2.2.1.trans h1.2.1, h2.2.2.1.trans h1.2.2, h2.1⟩

/-- C10 (the code departs from it): the goroutine receives from `sigc` once and has no loop,
so after the first reload it does not return to waiting. Two SIGHUPs, each with a loadable
configuration file, sent to the running server of the example cause one call of `loadConfig`
and one "config reloaded" line, not two; and whatever the number of SIGHUPs is, the reloads
are one. -/
theorem second_sighup_not_served :
    (loadConfig Example.env (Example.fsWith Example.otherConfigText) "config.json").2 = none
    ∧ (loadConfig Example.env (Example.fsWith Example.demoConfigText) "config.json").2 = none
    ∧ (deliverSIGHUPs Example.env "config.json" (Example.serverOn Example.demoConfigText)
        [Example.fsWith Example.otherConfigText, Example.fsWith Example.demoConfigText]).loadCalls
        = (Example.serverOn Example.demoConfigText).loadCalls + 1
    ∧ (deliverSIGHUPs Example.env "config.json" (Example.serverOn Example.demoConfigText)
        [Example.fsWith Example.otherConfigText, Example.fsWith Example.demoConfigText]).log
        = (Example.serverOn Example.demoConfigText).log ++ ["config reloaded"]
    ∧ ¬ (deliverSIGHUPs Example.env "config.json" (Example.serverOn Example.demoConfigText)
        [Example.fsWith Example.otherConfigText, Example.fsWith Example.demoConfigText]).loadCalls
        = (Example.serverOn Example.demoConfigText).loadCalls + 2
    ∧ (∀ (σ : Type) (env : Env σ) (configFile : String) (s : Proc σ) (fss : List FileSystem),
        s.exit = none → s.waiting = true → s.sigc = 0 → 1 ≤ fss.length →
        (∀ fs ∈ fss, (loadConfig env fs configFile).2 = none) →
        (deliverSIGHUPs env configFile s fss).loadCalls = s.loadCalls + 1
        ∧ (deliverSIGHUPs env configFile s fss).log = s.log ++ ["config reloaded"]
        ∧ (deliverSIGHUPs env configFile s fss).waiting = false) :=
  ⟨by decide, by decide, by decide, by decide, by decide,
    fun _ env configFile s fss => reload_listener_serves_once env configFile s fss⟩

/-! ## Startup: claim C7 -/

/-- C7 as stated fails: the configuration loads, `http.ListenAndServe` returns the error of
an address in use, the error is logged with `log.Println`, `main` returns, and the process
ends with status 0. -/
theorem listen_error_exit_status_zero :
    (main Example.env (Example.fsWith Example.demoConfigText)
        (fun _ => some "listen tcp 127.0.0.1:9000: bind: address already in use")
        "config.json" [] ()).log
        = ["Listening on 127.0.0.1:9000",
            "listen tcp 127.0.0.1:9000: bind: address already in use"]
    ∧ (main Example.env (Example.fsWith Example.demoConfigText)
        (fun _ => some "listen tcp 127.0.0.1:9000: bind: address already in use")
        "config.json" [] ()).exit = some 0
    ∧ ¬ ∃ n, n ≠ 0 ∧ (main Example.env (Example.fsWith Example.demoConfigText)
        (fun _ => some "listen tcp 127.0.0.1:9000: bind: address already in use")
        "config.json" [] ()).exit = some n :=
  ⟨by decide, by decide, by
    rintro ⟨n, hn, h⟩
    have h0 : (main Example.env (Example.fsWith Example.demoConfigText)
        (fun _ => some "listen tcp 127.0.0.1:9000: bind: address already in use")
        "config.json" [] ()).exit = some 0 := by decide
    rw [h0] at h
    exact hn (Option.some.inj h).symm⟩

/-- C7, amended: at startup without extra arguments, (a) an error of the initial `loadConfig`
is logged as "Failed to read config: ..." and the process exits with status 1; (b) when
the configuration loads and `http.ListenAndServe` returns an error, "Listening on ..." and the
error are logged, `main` returns and the process ends with status 0. -/
theorem main_startup_errors {σ : Type} (env : Env σ) (fs : FileSystem)
    (listenAndServe : String → Option String) (configFile : String) (w : σ) :
    (∀ e, (loadConfig env fs configFile).2 = some e →
      (main env fs listenAndServe configFile [] w).log = ["Failed to read config: " ++ e]
      ∧ (main env fs listenAndServe configFile [] w).exit = some 1)
    ∧ (∀ e, (loadConfig env fs configFile).2 = none →
      listenAndServe ((loadConfig env fs configFile).1.Address ++ ":"
        ++ toString (loadConfig env fs configFile).1.Port) = some e →
      (main env fs listenAndServe configFile [] w).log
        = ["Listening on " ++ ((loadConfig env fs configFile).1.Address ++ ":"
            ++ toString (loadConfig env fs configFile).1.Port), e]
      ∧ (main env fs listenAndServe configFile [] w).exit = some 0) := by
  constructor
  · intro e he
    simp [main, he, Proc.fatal, Proc.init]
  · intro e hl hb
    simp [main, hl, hb, Proc.logMsg, Proc.init]

/-- C7, amended, at a missing configuration file (a) and at an address in use (b). -/
theorem main_startup_errors_witness :
    ((main Example.env Example.fsEmpty (fun _ => none) "config.json" [] ()).log
        = ["Failed to read config: open config.json: no such file or directory"]
      ∧ (main Example.env Example.fsEmpty (fun _ => none) "config.json" [] ()).exit = some 1)
    ∧ ((main Example.env (Example.fsWith Example.demoConfigText)
          (fun _ => some "bind: address already in use") "config.json" [] ()).log
        = ["Listening on 127.0.0.1:9000", "bind: address already in use"]
      ∧ (main Example.env (Example.fsWith Example.demoConfigText)
          (fun _ => some "bind: address already in use") "config.json" [] ()).exit = some 0) :=
  ⟨(main_startup_errors Example.env Example.fsEmpty (fun _ => none) "config.json" ()).1
      "open config.json: no such file or directory" (by decide),
    (fun h => ⟨h.1.trans (by decide), h.2⟩)
      ((main_startup_errors Example.env (Example.fsWith Example.demoConfigText)
        (fun _ => some "bind: address already in use") "config.json" ()).2
        "bind: address already in use" (by decide) rfl)⟩

end GitlabWebhook
